import Mathlib

/-!
Verification of the register decoders and polling/retry logic of the Dyacon
CM1 weewx driver (`bin/user/cm1.py`), shallowly embedded in Lean.

Conventions of the embedding:
* Register words are Python ints, modelled as `ℤ`.  The transport
  (`minimalmodbus.read_registers`) only ever delivers unsigned words in
  `[0, 65535]`; theorems that depend on that range carry it as a hypothesis.
* Python numeric measurement values (ints and floats) are modelled as `ℚ`;
  the literal `0.1` of the source is the exact rational `1/10`.
* A Python dict produced by a decoder is modelled as an association list in
  insertion order (`Data`); `None` ("no reading") is `Option.none`.
* Fixed-length register slices are passed as separate arguments, mirroring
  the exact-length slices the callers pass (`x[0:9]`, `x[20:26]`, ...).
-/

namespace CM1

/-- A decoded measurement value: `none` is Python `None` ("no reading"),
`some q` a numeric value. -/
abbrev Value := Option ℚ

/-- A decoder result dictionary, in insertion order. -/
abbrev Data := List (String × Value)

/-- Key lookup in a decoded dictionary: `none` means the key is absent,
`some v` that the key is present and holds `v`. -/
def findVal : Data → String → Option Value
  | [], _ => none
  | (k, v) :: rest, key => if k = key then some v else findVal rest key

/-- Number of entries of a decoded dictionary that hold "no reading". -/
def countNone (d : Data) : ℕ :=
  (d.filter (fun p => p.2.isNone)).length

/-- `CM1._to_signed` (cm1.py 234-239) at its only used width `bits = 16`:
`if (x & (1 << 15)) != 0: x = x - (1 << 16)`.  `Int.land` has the same
two's-complement semantics as Python's `&`. -/
def to_signed (x : ℤ) : ℤ :=
  if Int.land x 32768 ≠ 0 then x - 65536 else x

/-- `CM1._to_long` (cm1.py 241-243): `(a << 16) + b`; for every Python int
`a`, `a << 16 = a * 2^16`. -/
def to_long (a b : ℤ) : ℤ :=
  a * 65536 + b

/-- `CM1._to_calculated` (cm1.py 251-256): sign the word, return `None` on
the sentinel `-9990`, otherwise scale by `0.1`. -/
def to_calculated (x : ℤ) : Option ℚ :=
  let s := to_signed x
  if s = -9990 then none else some ((s : ℚ) * (1 / 10))

/-- `CM1._decode_wind` (cm1.py 357-381): a 9-word wind slice.  The leading
status word is always stored; status `-1` emits nothing further ("no sensor
attached"), status `0` emits the eight scaled fields, any other status emits
the eight fields as `None`. -/
def decode_wind (x0 x1 x2 x3 x4 x5 x6 x7 x8 : ℤ) : Data :=
  ("wind_status", some (x0 : ℚ)) ::
    (if x0 = -1 then
      []
    else if x0 = 0 then
      [("wind_speed", some ((x1 : ℚ) * (1 / 10))),
       ("wind_dir", some ((x2 : ℚ) * (1 / 10))),
       ("wind_speed_2m", some ((x3 : ℚ) * (1 / 10))),
       ("wind_dir_2m", some ((x4 : ℚ) * (1 / 10))),
       ("wind_speed_10m", some ((x5 : ℚ) * (1 / 10))),
       ("wind_dir_10m", some ((x6 : ℚ) * (1 / 10))),
       ("wind_gust_speed", some ((x7 : ℚ) * (1 / 10))),
       ("wind_gust_dir", some ((x8 : ℚ) * (1 / 10)))]
    else
      [("wind_speed", none), ("wind_dir", none),
       ("wind_speed_2m", none), ("wind_dir_2m", none),
       ("wind_speed_10m", none), ("wind_dir_10m", none),
       ("wind_gust_speed", none), ("wind_gust_dir", none)])

/-- C1 counterexample: a raw status word of `0xFFFF = 65535`, as delivered
(unsigned) by the transport, does NOT behave as `-1`: the decoder emits all
eight wind keys explicitly set to "no reading" (here shown for
`wind_speed`), whereas for a literal `-1` status the key is absent. -/
theorem wind_status_ffff_not_absent :
    findVal (decode_wind 65535 0 0 0 0 0 0 0 0) "wind_speed" = some none ∧
    findVal (decode_wind (-1) 0 0 0 0 0 0 0 0) "wind_speed" = none := by
  decide

/-- C1 (amended): the wind decoder is piecewise in the status word: status
`-1` emits no wind measurement entries at all (only the status); status `0`
emits all eight wind fields, each the raw word times `0.1`; any other
status value — in particular the raw unsigned word `0xFFFF = 65535`, which
is not equal to `-1` — emits all eight wind keys set to "no reading". -/
theorem decode_wind_piecewise (x0 x1 x2 x3 x4 x5 x6 x7 x8 : ℤ) :
    (x0 = -1 →
      decode_wind x0 x1 x2 x3 x4 x5 x6 x7 x8 = [("wind_status", some (x0 : ℚ))]) ∧
    (x0 = 0 →
      decode_wind x0 x1 x2 x3 x4 x5 x6 x7 x8 =
        [("wind_status", some (x0 : ℚ)),
         ("wind_speed", some ((x1 : ℚ) * (1 / 10))),
         ("wind_dir", some ((x2 : ℚ) * (1 / 10))),
         ("wind_speed_2m", some ((x3 : ℚ) * (1 / 10))),
         ("wind_dir_2m", some ((x4 : ℚ) * (1 / 10))),
         ("wind_speed_10m", some ((x5 : ℚ) * (1 / 10))),
         ("wind_dir_10m", some ((x6 : ℚ) * (1 / 10))),
         ("wind_gust_speed", some ((x7 : ℚ) * (1 / 10))),
         ("wind_gust_dir", some ((x8 : ℚ) * (1 / 10)))]) ∧
    (x0 ≠ -1 → x0 ≠ 0 →
      decode_wind x0 x1 x2 x3 x4 x5 x6 x7 x8 =
        [("wind_status", some (x0 : ℚ)),
         ("wind_speed", none), ("wind_dir", none),
         ("wind_speed_2m", none), ("wind_dir_2m", none),
         ("wind_speed_10m", none), ("wind_dir_10m", none),
         ("wind_gust_speed", none), ("wind_gust_dir", none)]) := by
  refine ⟨fun h => ?_, fun h => ?_, fun h h0 => ?_⟩ <;>
    simp [decode_wind, h]
  · intro h1
    exact absurd h1 h0

/-- C1 witness: the spec's own example slice, status `0` with words
`[0,50,1800,45,1790,48,1810,60,1805]`, decodes with `wind_speed = 50 * 0.1`
and `wind_gust_dir = 1805 * 0.1`. -/
theorem decode_wind_piecewise_witness :
    decode_wind 0 50 1800 45 1790 48 1810 60 1805 =
      [("wind_status", some ((0 : ℤ) : ℚ)),
       ("wind_speed", some (((50 : ℤ) : ℚ) * (1 / 10))),
       ("wind_dir", some (((1800 : ℤ) : ℚ) * (1 / 10))),
       ("wind_speed_2m", some (((45 : ℤ) : ℚ) * (1 / 10))),
       ("wind_dir_2m", some (((1790 : ℤ) : ℚ) * (1 / 10))),
       ("wind_speed_10m", some (((48 : ℤ) : ℚ) * (1 / 10))),
       ("wind_dir_10m", some (((1810 : ℤ) : ℚ) * (1 / 10))),
       ("wind_gust_speed", some (((60 : ℤ) : ℚ) * (1 / 10))),
       ("wind_gust_dir", some (((1805 : ℤ) : ℚ) * (1 / 10)))] :=
  (decode_wind_piecewise 0 50 1800 45 1790 48 1810 60 1805).2.1 rfl

/-- `CM1._decode_lightning` (cm1.py 455-481): a 12-word lightning slice.
The leading status word is always stored; status `0x0080 = 128` sets the ten
dependent fields to `None`; any other status decodes the three counts, the
distance and five windowed counters raw and the energy as the unsigned
32-bit pair of words 5 and 6. -/
def decode_lightning (x0 x1 x2 x3 x4 x5 x6 x7 x8 x9 x10 x11 : ℤ) : Data :=
  ("lightning_status", some (x0 : ℚ)) ::
    (if x0 = 128 then
      [("lightning_strike_count", none),
       ("lightning_noise_count", none),
       ("lightning_disturber_count", none),
       ("lightning_distance", none),
       ("lightning_energy", none),
       ("lightning_strike_count_10m", none),
       ("lightning_strike_count_30m", none),
       ("lightning_strike_count_60m", none),
       ("lightning_noise_count_60m", none),
       ("lightning_disturber_count_60m", none)]
    else
      [("lightning_strike_count", some (x1 : ℚ)),
       ("lightning_noise_count", some (x2 : ℚ)),
       ("lightning_disturber_count", some (x3 : ℚ)),
       ("lightning_distance", some (x4 : ℚ)),
       ("lightning_energy", some ((to_long x5 x6 : ℤ) : ℚ)),
       ("lightning_strike_count_10m", some (x7 : ℚ)),
       ("lightning_strike_count_30m", some (x8 : ℚ)),
       ("lightning_strike_count_60m", some (x9 : ℚ)),
       ("lightning_noise_count_60m", some (x10 : ℚ)),
       ("lightning_disturber_count_60m", some (x11 : ℚ))])

/-- C2 counterexample: with status `0x0080` the lightning decoder sets TEN
dependent fields to "no reading", not nine: the windowed counters are five
(10/30/60-minute strike counts plus 60-minute noise and disturber counts),
not six, and together with the three counts, the distance and the energy
this makes ten `None` entries. -/
theorem lightning_nine_fields_false :
    countNone (decode_lightning 128 1 2 3 4 5 6 7 8 9 10 11) = 10 ∧
    countNone (decode_lightning 128 1 2 3 4 5 6 7 8 9 10 11) ≠ 9 := by
  decide

/-- C2 (amended): if the status word equals `0x0080` then exactly the TEN
dependent lightning fields — strike/noise/disturber counts, distance,
energy, and the five windowed counters (10/30/60-minute strike counts,
60-minute noise count, 60-minute disturber count) — are "no reading",
regardless of the remaining words; otherwise the decoder emits the counts
and distance raw, the energy as the unsigned 32-bit pair of words 5 and 6,
and the five windowed counters raw. -/
theorem decode_lightning_piecewise (x0 x1 x2 x3 x4 x5 x6 x7 x8 x9 x10 x11 : ℤ) :
    (x0 = 128 →
      decode_lightning x0 x1 x2 x3 x4 x5 x6 x7 x8 x9 x10 x11 =
        [("lightning_status", some (x0 : ℚ)),
         ("lightning_strike_count", none),
         ("lightning_noise_count", none),
         ("lightning_disturber_count", none),
         ("lightning_distance", none),
         ("lightning_energy", none),
         ("lightning_strike_count_10m", none),
         ("lightning_strike_count_30m", none),
         ("lightning_strike_count_60m", none),
         ("lightning_noise_count_60m", none),
         ("lightning_disturber_count_60m", none)]) ∧
    (x0 ≠ 128 →
      decode_lightning x0 x1 x2 x3 x4 x5 x6 x7 x8 x9 x10 x11 =
        [("lightning_status", some (x0 : ℚ)),
         ("lightning_strike_count", some (x1 : ℚ)),
         ("lightning_noise_count", some (x2 : ℚ)),
         ("lightning_disturber_count", some (x3 : ℚ)),
         ("lightning_distance", some (x4 : ℚ)),
         ("lightning_energy", some (((x5 * 65536 + x6 : ℤ) : ℚ))),
         ("lightning_strike_count_10m", some (x7 : ℚ)),
         ("lightning_strike_count_30m", some (x8 : ℚ)),
         ("lightning_strike_count_60m", some (x9 : ℚ)),
         ("lightning_noise_count_60m", some (x10 : ℚ)),
         ("lightning_disturber_count_60m", some (x11 : ℚ))]) := by
  constructor <;> intro h <;> simp [decode_lightning, to_long, h]

/-- C2 witness: a faulted slice (status `0x0080`) with arbitrary garbage in
the remaining words decodes to the status plus ten "no reading" fields. -/
theorem decode_lightning_piecewise_witness :
    decode_lightning 128 7 7 7 7 7 7 7 7 7 7 7 =
      [("lightning_status", some ((128 : ℤ) : ℚ)),
       ("lightning_strike_count", none),
       ("lightning_noise_count", none),
       ("lightning_disturber_count", none),
       ("lightning_distance", none),
       ("lightning_energy", none),
       ("lightning_strike_count_10m", none),
       ("lightning_strike_count_30m", none),
       ("lightning_strike_count_60m", none),
       ("lightning_noise_count_60m", none),
       ("lightning_disturber_count_60m", none)] :=
  (decode_lightning_piecewise 128 7 7 7 7 7 7 7 7 7 7 7).1 rfl

/-- Host byte order, the order `struct.unpack('f', ...)` (no `>` prefix)
uses to reinterpret the four packed bytes. -/
inductive ByteOrder
  | be
  | le
deriving DecidableEq

/-- Bit pattern — the unsigned 32-bit integer over the four bytes — of the
float produced by `CM1._to_float` (cm1.py 245-249).
`struct.pack('>HH', a, b)` yields the bytes
`[a / 256, a % 256, b / 256, b % 256]` (big-endian words, `a` first, valid
for `a, b` in `[0, 65535]`); `struct.unpack('f', ...)` then reads those
four bytes in HOST byte order, since the bare `'f'` format uses native
order.  Two well-formed IEEE-754 bit patterns denote the same single float
iff they are equal. -/
def to_float_bits (host : ByteOrder) (a b : ℕ) : ℕ :=
  match host with
  | .be => (a / 256) * 2 ^ 24 + (a % 256) * 2 ^ 16 + (b / 256) * 2 ^ 8 + b % 256
  | .le => (b % 256) * 2 ^ 24 + (b / 256) * 2 ^ 16 + (a % 256) * 2 ^ 8 + a / 256

/-- Modelled from the spec: the claimed bit pattern of the decoded float —
"word A supplies the high-order 16 bits, word B the low-order 16 bits" of
the big-endian 32-bit representation. -/
def spec_float_bits (a b : ℕ) : ℕ :=
  a * 2 ^ 16 + b

/-- C3: on a big-endian host the pair codec matches the spec, but on a
little-endian host (the usual deployment) it does not: for the register
pair `(0x3F80, 0x0000)` — the big-endian encoding of `1.0f` — the code
produces the bit pattern `0x0000803F` (a subnormal ≈ 4.6e-41), not
`0x3F800000 = 1.0f`.  `struct.pack` uses an explicit big-endian `'>HH'`
while `struct.unpack` uses the native-order `'f'`; the spec's big-endian
reading is the evident intent and the missing `'>'` in the unpack format is
the slip. -/
theorem to_float_native_order_mismatch :
    to_float_bits .be 16256 0 = spec_float_bits 16256 0 ∧
    to_float_bits .le 16256 0 = 32831 ∧
    to_float_bits .le 16256 0 ≠ spec_float_bits 16256 0 := by
  decide

/-- `CM1._decode_calculated` (cm1.py 442-449): heat index, wind chill, dew
point and wet bulb, each through the scaled-decimal codec `_to_calculated`. -/
def decode_calculated (x0 x1 x2 x3 : ℤ) : Data :=
  [("heatindex", to_calculated x0),
   ("windchill", to_calculated x1),
   ("dewpoint", to_calculated x2),
   ("wetbulb", to_calculated x3)]

/-- `CM1._decode_tph` (cm1.py 388-409): a 6-word
temperature/humidity/pressure slice.  The leading status word is always
stored; status `-1` emits nothing further; otherwise bit 0 gates
temperature/humidity and bit 1 gates pressure/trend/secondary temperature.
The trend word `x4` is stored raw, with no signed reinterpretation. -/
def decode_tph (x0 x1 x2 x3 x4 x5 : ℤ) : Data :=
  ("tph_status", some (x0 : ℚ)) ::
    (if x0 = -1 then
      []
    else
      (if Int.land x0 1 = 1 then
        [("temperature", none), ("humidity", none)]
      else
        [("temperature", some ((x1 : ℚ) * (1 / 10))),
         ("humidity", some ((x2 : ℚ) * (1 / 10)))]) ++
      (if Int.land x0 2 = 2 then
        [("pressure", none), ("pressure_trend", none), ("temperature_p", none)]
      else
        [("pressure", some ((x3 : ℚ) * (1 / 10))),
         ("pressure_trend", some (x4 : ℚ)),
         ("temperature_p", some ((x5 : ℚ) * (1 / 10)))]))

/-- On nonnegative integers, `Int.land` is `Nat.land` on the operands. -/
theorem land_one_natCast (n : ℕ) : Int.land (n : ℤ) 1 = ((n &&& 1 : ℕ) : ℤ) := rfl

/-- On nonnegative integers, `Int.land` is `Nat.land` on the operands. -/
theorem land_two_natCast (n : ℕ) : Int.land (n : ℤ) 2 = ((n &&& 2 : ℕ) : ℤ) := rfl

/-- On nonnegative integers, `Int.land` is `Nat.land` on the operands. -/
theorem land_two_pow_15_natCast (n : ℕ) :
    Int.land (n : ℤ) 32768 = ((n &&& 32768 : ℕ) : ℤ) := rfl

/-- Bit 1 as an arithmetic condition. -/
theorem nat_and_two_eq (n : ℕ) : n &&& 2 = if n / 2 % 2 = 1 then 2 else 0 := by
  have h := Nat.and_two_pow n 1
  rw [Nat.testBit_to_div_mod] at h
  norm_num at h
  by_cases hb : n / 2 % 2 = 1 <;> simp [hb] at h ⊢ <;> omega

/-- Bit 15 as an arithmetic condition, for words below `2^16`. -/
theorem nat_and_top_bit (n : ℕ) (h : n < 65536) :
    n &&& 32768 = if 32768 ≤ n then 32768 else 0 := by
  have h2 := Nat.and_two_pow n 15
  rw [Nat.testBit_to_div_mod] at h2
  norm_num at h2
  by_cases hb : 32768 ≤ n
  · have hd : n / 32768 % 2 = 1 := by omega
    simp [hd] at h2
    simp [hb, h2]
  · have hd : n / 32768 % 2 = 0 := by omega
    simp [hd] at h2
    simp [hb, h2]

/-- Python's `x & 0x01` on a nonnegative int is `x % 2`. -/
theorem int_land_one (x : ℤ) (h : 0 ≤ x) : Int.land x 1 = x % 2 := by
  obtain ⟨n, rfl⟩ := Int.eq_ofNat_of_zero_le h
  rw [land_one_natCast, Nat.and_one_is_mod]
  omega

/-- Python's `x & 0x02 == 0x02` on a nonnegative int is `x / 2 % 2 = 1`. -/
theorem int_land_two (x : ℤ) (h : 0 ≤ x) : (Int.land x 2 = 2) ↔ x / 2 % 2 = 1 := by
  obtain ⟨n, rfl⟩ := Int.eq_ofNat_of_zero_le h
  rw [land_two_natCast, nat_and_two_eq]
  by_cases hb : n / 2 % 2 = 1 <;> simp [hb] <;> omega

/-- `CM1._to_signed` on a 16-bit word is the usual two's-complement
reinterpretation. -/
theorem to_signed_eq (x : ℤ) (h0 : 0 ≤ x) (h1 : x < 65536) :
    to_signed x = if 32768 ≤ x then x - 65536 else x := by
  obtain ⟨n, rfl⟩ := Int.eq_ofNat_of_zero_le h0
  have hn : n < 65536 := by exact_mod_cast h1
  rw [to_signed, land_two_pow_15_natCast, nat_and_top_bit n hn]
  by_cases hb : 32768 ≤ n
  · have hc : (32768 : ℤ) ≤ (n : ℤ) := by exact_mod_cast hb
    simp [hb, hc]
  · have hc : ¬(32768 : ℤ) ≤ (n : ℤ) := by exact_mod_cast hb
    simp [hb, hc]

/-- C7: for every raw word `v` in `[0, 65535]`, the scaled-decimal codec
checks the sentinel before scaling: the result is "no reading" exactly when
the two's-complement reinterpretation of `v` is `-9990` (raw `v = 55546`),
and otherwise is the signed value times `0.1`; `_decode_calculated` routes
heat index, wind chill, dew point and wet bulb through this codec. -/
theorem calculated_sentinel_spec (v x0 x1 x2 x3 : ℤ) (h0 : 0 ≤ v) (h1 : v < 65536) :
    (to_calculated v = none ↔ v = 55546) ∧
    (v ≠ 55546 → to_calculated v = some ((to_signed v : ℚ) * (1 / 10))) ∧
    decode_calculated x0 x1 x2 x3 =
      [("heatindex", to_calculated x0), ("windchill", to_calculated x1),
       ("dewpoint", to_calculated x2), ("wetbulb", to_calculated x3)] := by
  have hs := to_signed_eq v h0 h1
  refine ⟨?_, fun hne => ?_, rfl⟩
  · rw [to_calculated, hs]
    by_cases hb : (32768 : ℤ) ≤ v <;> simp [hb] <;> omega
  · have hsent : to_signed v ≠ -9990 := by
      rw [hs]
      by_cases hb : (32768 : ℤ) ≤ v <;> simp [hb] <;> omega
    simp [to_calculated, hsent]

/-- C7 witness: the sentinel word `55546` decodes to "no reading", and an
ordinary word such as `12345` decodes to its signed value times `0.1`. -/
theorem calculated_sentinel_spec_witness :
    to_calculated 55546 = none ∧
    to_calculated 12345 = some ((to_signed 12345 : ℚ) * (1 / 10)) :=
  ⟨(calculated_sentinel_spec 55546 0 0 0 0 (by decide) (by decide)).1.mpr rfl,
   (calculated_sentinel_spec 12345 0 0 0 0 (by decide) (by decide)).2.1 (by decide)⟩

/-- C8 counterexample: the pressure-trend word is stored raw, not
reinterpreted as a signed 16-bit value: for the slice
`[0, 0, 0, 0, 65535, 0]` the decoder yields `pressure_trend = 65535`,
whereas the two's-complement (signed) value of the word is `-1`. -/
theorem pressure_trend_not_signed :
    findVal (decode_tph 0 0 0 0 65535 0) "pressure_trend" = some (some 65535) ∧
    some (some (65535 : ℚ)) ≠ some (some ((-1 : ℤ) : ℚ)) := by
  decide

/-- C8 (amended): for every 6-word slice whose status word is in the
unsigned register range `[0, 65535]`: bit 0 set means temperature and
humidity are "no reading", else they are the raw words times `0.1`; bit 1
set means pressure, trend and secondary temperature are "no reading", else
pressure and secondary temperature are the raw words times `0.1` and the
trend is the raw word `x4` passed through unmodified (NOT reinterpreted as
a signed value). -/
theorem decode_tph_piecewise (x0 x1 x2 x3 x4 x5 : ℤ) (h0 : 0 ≤ x0) (h1 : x0 < 65536) :
    (x0 % 2 = 1 →
      findVal (decode_tph x0 x1 x2 x3 x4 x5) "temperature" = some none ∧
      findVal (decode_tph x0 x1 x2 x3 x4 x5) "humidity" = some none) ∧
    (x0 % 2 = 0 →
      findVal (decode_tph x0 x1 x2 x3 x4 x5) "temperature" =
        some (some ((x1 : ℚ) * (1 / 10))) ∧
      findVal (decode_tph x0 x1 x2 x3 x4 x5) "humidity" =
        some (some ((x2 : ℚ) * (1 / 10)))) ∧
    (x0 / 2 % 2 = 1 →
      findVal (decode_tph x0 x1 x2 x3 x4 x5) "pressure" = some none ∧
      findVal (decode_tph x0 x1 x2 x3 x4 x5) "pressure_trend" = some none ∧
      findVal (decode_tph x0 x1 x2 x3 x4 x5) "temperature_p" = some none) ∧
    (x0 / 2 % 2 = 0 →
      findVal (decode_tph x0 x1 x2 x3 x4 x5) "pressure" =
        some (some ((x3 : ℚ) * (1 / 10))) ∧
      findVal (decode_tph x0 x1 x2 x3 x4 x5) "pressure_trend" =
        some (some (x4 : ℚ)) ∧
      findVal (decode_tph x0 x1 x2 x3 x4 x5) "temperature_p" =
        some (some ((x5 : ℚ) * (1 / 10)))) := by
  have hm1 := int_land_one x0 h0
  have hm2 := int_land_two x0 h0
  have hne : x0 ≠ -1 := by omega
  refine ⟨fun h => ?_, fun h => ?_, fun h => ?_, fun h => ?_⟩
  · have hb : Int.land x0 1 = 1 := by rw [hm1]; exact h
    by_cases hc : Int.land x0 2 = 2 <;>
      simp [decode_tph, hne, hb, hc, findVal]
  · have hb : ¬Int.land x0 1 = 1 := by rw [hm1]; omega
    by_cases hc : Int.land x0 2 = 2 <;>
      simp [decode_tph, hne, hb, hc, findVal]
  · have hc : Int.land x0 2 = 2 := hm2.mpr h
    by_cases hb : Int.land x0 1 = 1 <;>
      simp [decode_tph, hne, hb, hc, findVal]
  · have hc : ¬Int.land x0 2 = 2 := fun hcc => by
      have := hm2.mp hcc
      omega
    by_cases hb : Int.land x0 1 = 1 <;>
      simp [decode_tph, hne, hb, hc, findVal]

/-- C8 witness: status `3` (both bits set) withholds both sensor groups. -/
theorem decode_tph_piecewise_witness :
    findVal (decode_tph 3 1 2 3 4 5) "temperature" = some none ∧
    findVal (decode_tph 3 1 2 3 4 5) "pressure" = some none :=
  ⟨((decode_tph_piecewise 3 1 2 3 4 5 (by decide) (by decide)).1 (by decide)).1,
   ((decode_tph_piecewise 3 1 2 3 4 5 (by decide) (by decide)).2.2.1 (by decide)).1⟩

/-- Python exception classes relevant to `CM1Driver._get_with_retries`
(cm1.py 187-197): the three caught classes and a representative of every
other exception class. -/
inductive ExcKind
  | ioError
  | valueError
  | typeError
  | otherExc
deriving DecidableEq

/-- The catch clause `except (IOError, ValueError, TypeError)`. -/
def caught : ExcKind → Bool
  | .ioError => true
  | .valueError => true
  | .typeError => true
  | .otherExc => false

/-- Final result of `_get_with_retries`: a returned value, an exception
propagating out of the loop uncaught, or the `weewx.WeeWxIOError`
("max tries exceeded") raised after the loop. -/
inductive Outcome (α : Type)
  | ok (a : α)
  | raised (e : ExcKind)
  | exhausted
deriving DecidableEq

/-- The loop `for n in range(max_tries)` of `_get_with_retries`, starting at
iteration index `n` with `fuel` iterations left.  `op i` is the outcome of
the call made in iteration `i`.  Returns the final outcome together with
the number of calls made (the `time.sleep(retry_wait)` has no effect on
either and is dropped). -/
def run (op : ℕ → Except ExcKind α) : ℕ → ℕ → Outcome α × ℕ
  | 0, _ => (.exhausted, 0)
  | fuel + 1, n =>
    match op n with
    | .ok a => (.ok a, 1)
    | .error e =>
      if caught e then
        let r := run op fuel (n + 1)
        (r.1, r.2 + 1)
      else
        (.raised e, 1)

/-- `CM1Driver._get_with_retries` (cm1.py 187-197). -/
def get_with_retries (op : ℕ → Except ExcKind α) (max_tries : ℕ) : Outcome α × ℕ :=
  run op max_tries 0

/-- If every remaining iteration fails with a caught exception, the loop
makes exactly `fuel` calls and ends exhausted. -/
theorem run_exhaust (op : ℕ → Except ExcKind α) (fuel n : ℕ)
    (h : ∀ i < fuel, ∃ e, caught e = true ∧ op (n + i) = .error e) :
    run op fuel n = (.exhausted, fuel) := by
  induction fuel generalizing n with
  | zero => rfl
  | succ f ih =>
    obtain ⟨e, hc, he⟩ := h 0 (Nat.succ_pos f)
    rw [Nat.add_zero] at he
    have hrec := ih (n + 1) fun i hi => by
      obtain ⟨e2, hc2, he2⟩ := h (i + 1) (by omega)
      exact ⟨e2, hc2, by rw [show n + 1 + i = n + (i + 1) by omega]; exact he2⟩
    simp [run, he, hc, hrec]

/-- If the call at offset `k` succeeds and all earlier ones fail with caught
exceptions, the loop returns that result after exactly `k + 1` calls. -/
theorem run_success (op : ℕ → Except ExcKind α) (a : α) (k fuel n : ℕ)
    (hk : k < fuel) (ha : op (n + k) = .ok a)
    (h : ∀ i < k, ∃ e, caught e = true ∧ op (n + i) = .error e) :
    run op fuel n = (.ok a, k + 1) := by
  induction k generalizing fuel n with
  | zero =>
    obtain ⟨f, rfl⟩ := Nat.exists_eq_succ_of_ne_zero (by omega : fuel ≠ 0)
    rw [Nat.add_zero] at ha
    simp [run, ha]
  | succ j ih =>
    obtain ⟨f, rfl⟩ := Nat.exists_eq_succ_of_ne_zero (by omega : fuel ≠ 0)
    obtain ⟨e, hc, he⟩ := h 0 (Nat.succ_pos j)
    rw [Nat.add_zero] at he
    have hrec := ih f (n + 1) (by omega)
      (by rw [show n + 1 + j = n + (j + 1) by omega]; exact ha)
      (fun i hi => by
        obtain ⟨e2, hc2, he2⟩ := h (i + 1) (by omega)
        exact ⟨e2, hc2, by rw [show n + 1 + i = n + (i + 1) by omega]; exact he2⟩)
    simp [run, he, hc, hrec]

/-- C6: if the underlying operation fails with a transport-layer `IOError`
on every attempt, the retry wrapper invokes it exactly `max_tries` times
and then fails with the retry-exhaustion error (`weewx.WeeWxIOError`); if
attempt `k` is the first to succeed, its result is returned after exactly
`k + 1` calls and no further attempts are made. -/
theorem retry_exhaustion_spec (op : ℕ → Except ExcKind α) (m k : ℕ) (a : α) :
    ((∀ n < m, op n = .error .ioError) →
      get_with_retries op m = (.exhausted, m)) ∧
    (k < m → op k = .ok a → (∀ n < k, op n = .error .ioError) →
      get_with_retries op m = (.ok a, k + 1)) := by
  constructor
  · intro h
    exact run_exhaust op m 0 fun i hi =>
      ⟨.ioError, rfl, by rw [Nat.zero_add]; exact h i hi⟩
  · intro hk ha h
    exact run_success op a k m 0 hk (by rw [Nat.zero_add]; exact ha)
      fun i hi => ⟨.ioError, rfl, by rw [Nat.zero_add]; exact h i hi⟩

/-- C6 witness: with `max_tries = 3`, an operation that always fails with
`IOError` is called exactly 3 times and the wrapper ends exhausted; an
operation that succeeds on its second call returns that value after exactly
2 calls. -/
theorem retry_exhaustion_spec_witness :
    get_with_retries (fun _ => (Except.error .ioError : Except ExcKind ℕ)) 3 =
      (.exhausted, 3) ∧
    get_with_retries
        (fun n => if n = 1 then Except.ok (42 : ℕ) else .error .ioError) 3 =
      (.ok 42, 2) :=
  ⟨(retry_exhaustion_spec (fun _ => (Except.error .ioError : Except ExcKind ℕ))
      3 0 0).1 (fun _ _ => rfl),
   (retry_exhaustion_spec
      (fun n => if n = 1 then Except.ok (42 : ℕ) else .error .ioError)
      3 1 42).2 (by omega) rfl (fun n hn => by
        have h0 : n = 0 := by omega
        subst h0
        rfl)⟩

/-- C4 counterexample: a `TypeError` — a programmer/config error, never a
transport-layer failure — raised on every call is retried: with
`max_tries = 3` the operation is invoked 3 times (not once) and the loop
ends with the exhaustion error rather than propagating the `TypeError`
immediately, because the catch clause lists `TypeError` (and `ValueError`,
the class `minimalmodbus` raises for invalid register offsets) alongside
`IOError`. -/
theorem typeerror_retried :
    get_with_retries (fun _ => (Except.error .typeError : Except ExcKind ℕ)) 3 =
      (.exhausted, 3) ∧
    (get_with_retries (fun _ => (Except.error .typeError : Except ExcKind ℕ)) 3).2 ≠ 1 := by
  decide

/-- C4 (amended): the retry wrapper retries exactly the exception classes
`IOError`, `ValueError` and `TypeError`; an exception of any other class
propagates immediately out of the poll cycle after a single attempt.
Programmer/config errors that surface as `ValueError` or `TypeError` (such
as invalid register offsets) are therefore retried, not immediately
fatal. -/
theorem retry_catch_classification (op : ℕ → Except ExcKind α) (m : ℕ) :
    (0 < m → op 0 = .error .otherExc →
      get_with_retries op m = (.raised .otherExc, 1)) ∧
    ((∀ n, op n = .error .typeError) →
      get_with_retries op m = (.exhausted, m)) := by
  constructor
  · intro hm h0
    obtain ⟨f, rfl⟩ := Nat.exists_eq_succ_of_ne_zero (by omega : m ≠ 0)
    simp [get_with_retries, run, h0, caught]
  · intro h
    exact run_exhaust op m 0 fun i _ => ⟨.typeError, rfl, h (0 + i)⟩

/-- C4 witness: an uncaught exception class propagates after one call. -/
theorem retry_catch_classification_witness :
    get_with_retries (fun _ => (Except.error .otherExc : Except ExcKind ℕ)) 3 =
      (.raised .otherExc, 1) :=
  (retry_catch_classification
    (fun _ => (Except.error .otherExc : Except ExcKind ℕ)) 3).1 (by omega) rfl

/-- Modelled from the spec: `weewx.wxformulas.calculate_rain` (imported by
cm1.py, not part of this repository) — "the incremental rain amount is
`(c - c_prev)` when `c >= c_prev` ..., resolving to 'no reading' on the
very first cycle (no previous value) and handling counter reset at day
rollover by treating a decrease as a fresh total (`delta = c`, not
negative)". -/
def calculate_rain : Option ℚ → Option ℚ → Option ℚ
  | some n, some o => if o ≤ n then some (n - o) else some n
  | _, _ => none

/-- The rain step of `CM1Driver.genLoopPackets` (cm1.py 169-174): compute
the delta from the day-total counter and the stored previous counter, scale
a non-`None` delta by the bucket size, and store the new counter.  Returns
the emitted `rain` value and the new `last_rain` state. -/
def rain_update (bucket : ℚ) (last_rain : Option ℚ) (total : ℚ) :
    Option ℚ × Option ℚ :=
  (match calculate_rain (some total) last_rain with
    | none => none
    | some q => some (q * bucket),
   some total)

/-- C5: the incremental rain is "no reading" on the first cycle (no stored
previous counter); it is `(c - c_prev) * bucket_size` when `c ≥ c_prev`;
it is `c * bucket_size` (never negative) when `c < c_prev` (day rollover);
and `c` is stored as the new previous counter in every case. -/
theorem rain_delta_spec (bucket c cprev : ℚ) :
    rain_update bucket none c = (none, some c) ∧
    (cprev ≤ c →
      rain_update bucket (some cprev) c = (some ((c - cprev) * bucket), some c)) ∧
    (c < cprev →
      rain_update bucket (some cprev) c = (some (c * bucket), some c)) := by
  refine ⟨rfl, fun h => ?_, fun h => ?_⟩
  · simp [rain_update, calculate_rain, h]
  · simp [rain_update, calculate_rain, not_le.mpr h]

/-- C5 witness: the spec's example run with the default bucket size
`0.2 = 1/5`: first poll with day-total 120 yields no reading; second poll
with 125 yields `(125 - 120) * 1/5`; third poll with 3 (rollover) yields
`3 * 1/5`, not a negative amount.  The new counter is stored each time. -/
theorem rain_delta_spec_witness :
    rain_update (1 / 5) none 120 = (none, some 120) ∧
    rain_update (1 / 5) (some 120) 125 = (some ((125 - 120) * (1 / 5)), some 125) ∧
    rain_update (1 / 5) (some 125) 3 = (some (3 * (1 / 5)), some 3) :=
  ⟨(rain_delta_spec (1 / 5) 120 0).1,
   (rain_delta_spec (1 / 5) 125 120).2.1 (by norm_num),
   (rain_delta_spec (1 / 5) 3 125).2.2 (by norm_num)⟩

/-- The register-encoding half of `CM1.set_clock` (cm1.py 304-317): from
the local calendar fields of the instant, pack `ds = (yy-2000)*10000 +
mon*100 + mday` and `ts = hour*10000 + min*100 + sec` and split each into
two 16-bit words, high word first; the written buffer is
`[thi, tlo, dhi, dlo]`.  Python `x % 0x10000` is `Int.emod` and
`(x - lo) >> 16` is exact division by `65536` here, since `x - lo` is a
multiple of `65536`. -/
def set_clock_regs (y mo d h mi s : ℤ) : ℤ × ℤ × ℤ × ℤ :=
  let ds := (y - 2000) * 10000 + mo * 100 + d
  let dlo := ds % 65536
  let dhi := (ds - dlo) / 65536
  let ts := h * 10000 + mi * 100 + s
  let tlo := ts % 65536
  let thi := (ts - tlo) / 65536
  (thi, tlo, dhi, dlo)

/-- The decoding half of `CM1.get_clock` (cm1.py 294-302): recombine
`ts = (x0 << 16) + x1` and `ds = (x2 << 16) + x3` and parse the string
`"20%06d.%06d" % (ds, ts)` with `strptime("%Y%m%d.%H%M%S")`.  The model
returns `none` where `strptime` raises: when a packed value is negative or
exceeds six digits (the formatted string then no longer matches the
pattern), or when a digit group is outside `strptime`'s field range
(`%m` 1-12, `%d` 1-31, `%H` 0-23, `%M` 0-59, `%S` 0-61); `strptime`'s
additional day-of-month-per-month validation only shrinks the accepted set
further and is not needed for the round trip on valid instants. -/
def get_clock_cal (x0 x1 x2 x3 : ℤ) :
    Option (ℤ × ℤ × ℤ × ℤ × ℤ × ℤ) :=
  let ds := x2 * 65536 + x3
  let ts := x0 * 65536 + x1
  if 0 ≤ ds ∧ ds ≤ 999999 ∧ 0 ≤ ts ∧ ts ≤ 999999 then
    let y := 2000 + ds / 10000
    let mo := ds / 100 % 100
    let d := ds % 100
    let h := ts / 10000
    let mi := ts / 100 % 100
    let s := ts % 100
    if 1 ≤ mo ∧ mo ≤ 12 ∧ 1 ≤ d ∧ d ≤ 31 ∧ h ≤ 23 ∧ mi ≤ 59 ∧ s ≤ 61 then
      some (y, mo, d, h, mi, s)
    else
      none
  else
    none

/-- C9: for every calendar instant representable in the station's clock
registers (years 2000-2099, to one-second granularity), encoding with
`set_clock` and decoding with `get_clock` returns the same instant.  The
conversion between epoch seconds and local calendar fields
(`time.localtime` / `time.mktime`) is the single fixed reference timezone
convention, a bijection on valid instants, so the round trip is stated on
calendar fields. -/
theorem clock_roundtrip (y mo d h mi s : ℤ)
    (hy0 : 2000 ≤ y) (hy1 : y ≤ 2099)
    (hmo0 : 1 ≤ mo) (hmo1 : mo ≤ 12)
    (hd0 : 1 ≤ d) (hd1 : d ≤ 31)
    (hh0 : 0 ≤ h) (hh1 : h ≤ 23)
    (hmi0 : 0 ≤ mi) (hmi1 : mi ≤ 59)
    (hs0 : 0 ≤ s) (hs1 : s ≤ 59) :
    get_clock_cal (set_clock_regs y mo d h mi s).1
        (set_clock_regs y mo d h mi s).2.1
        (set_clock_regs y mo d h mi s).2.2.1
        (set_clock_regs y mo d h mi s).2.2.2 =
      some (y, mo, d, h, mi, s) := by
  simp only [set_clock_regs, get_clock_cal]
  have hds : ((y - 2000) * 10000 + mo * 100 + d -
        ((y - 2000) * 10000 + mo * 100 + d) % 65536) / 65536 * 65536 +
        ((y - 2000) * 10000 + mo * 100 + d) % 65536 =
      (y - 2000) * 10000 + mo * 100 + d := by
    omega
  have hts : (h * 10000 + mi * 100 + s -
        (h * 10000 + mi * 100 + s) % 65536) / 65536 * 65536 +
        (h * 10000 + mi * 100 + s) % 65536 =
      h * 10000 + mi * 100 + s := by
    omega
  rw [hds, hts]
  have hrange : 0 ≤ (y - 2000) * 10000 + mo * 100 + d ∧
      (y - 2000) * 10000 + mo * 100 + d ≤ 999999 ∧
      0 ≤ h * 10000 + mi * 100 + s ∧ h * 10000 + mi * 100 + s ≤ 999999 := by
    omega
  rw [if_pos hrange]
  have hy : 2000 + ((y - 2000) * 10000 + mo * 100 + d) / 10000 = y := by omega
  have hmo : ((y - 2000) * 10000 + mo * 100 + d) / 100 % 100 = mo := by omega
  have hd : ((y - 2000) * 10000 + mo * 100 + d) % 100 = d := by omega
  have hh : (h * 10000 + mi * 100 + s) / 10000 = h := by omega
  have hmi : (h * 10000 + mi * 100 + s) / 100 % 100 = mi := by omega
  have hs : (h * 10000 + mi * 100 + s) % 100 = s := by omega
  rw [hy, hmo, hd, hh, hmi, hs]
  rw [if_pos ⟨hmo0, hmo1, hd0, hd1, hh1, hmi1, by omega⟩]

/-- C9 witness: the instant 2016-02-29 12:34:56 round-trips through the
clock registers. -/
theorem clock_roundtrip_witness :
    get_clock_cal (set_clock_regs 2016 2 29 12 34 56).1
        (set_clock_regs 2016 2 29 12 34 56).2.1
        (set_clock_regs 2016 2 29 12 34 56).2.2.1
        (set_clock_regs 2016 2 29 12 34 56).2.2.2 =
      some (2016, 2, 29, 12, 34, 56) :=
  clock_roundtrip 2016 2 29 12 34 56 (by norm_num) (by norm_num) (by norm_num)
    (by norm_num) (by norm_num) (by norm_num) (by norm_num) (by norm_num)
    (by norm_num) (by norm_num) (by norm_num) (by norm_num)

/-- C10: each status-gated block decoder stores the raw, unmodified status
register word under its status key in every branch — also when the sensor
is absent or faulted and the dependent measurements are withheld or set to
"no reading". -/
theorem status_always_present
    (w0 w1 w2 w3 w4 w5 w6 w7 w8 t0 t1 t2 t3 t4 t5 : ℤ)
    (l0 l1 l2 l3 l4 l5 l6 l7 l8 l9 l10 l11 : ℤ) :
    findVal (decode_wind w0 w1 w2 w3 w4 w5 w6 w7 w8) "wind_status" =
      some (some (w0 : ℚ)) ∧
    findVal (decode_tph t0 t1 t2 t3 t4 t5) "tph_status" =
      some (some (t0 : ℚ)) ∧
    findVal (decode_lightning l0 l1 l2 l3 l4 l5 l6 l7 l8 l9 l10 l11)
        "lightning_status" =
      some (some (l0 : ℚ)) :=
  ⟨rfl, rfl, rfl⟩

end CM1
